import Mathlib

/-!
Verification development for the request-tracking Lambda backend
(`src/lambda-package/index.js`) together with its MySQL schema
(`src/unnamed/part_000`).

The handler is embedded shallowly:

* JavaScript runtime values that the handler inspects dynamically are
  modelled by `JSValue` (JSON values as produced by `JSON.parse` and by the
  mysql2 driver for JSON columns).
* The three relational tables (`requests`, `request_comments`, `user_roles`)
  are modelled by lists of row structures inside `DB`; the schema's foreign
  key from `request_comments.request_id` to `requests.id` is modelled in
  `dbInsertComment`.
* Each HTTP route of the handler becomes a Lean function from the incoming
  data and the database state to a response value plus the successor state.
  Storage failures of the external collaborator are injected through an
  explicit schedule (`FailSched`), and webhook delivery through
  `DeliveryOracle`, so that error-containment properties can be stated.
* Timestamps are modelled as naturals; ISO-8601 strings compare the same
  way as the instants they denote, so nothing is lost for ordering claims.
-/

namespace SecurityPortal

/- JavaScript/JSON values as seen by the handler: the parsed request body,
JSON columns returned by the mysql2 driver, and the values the handler
builds.  Arrays and objects are mutual inductives so that decidable
equality can be derived. -/
mutual
inductive JSValue where
  | null
  | bool (b : Bool)
  | num (n : Int)
  | str (s : String)
  | arr (elems : JSList)
  | obj (fields : JSFields)
deriving DecidableEq, Repr
inductive JSList where
  | nil
  | cons (head : JSValue) (tail : JSList)
deriving DecidableEq, Repr
inductive JSFields where
  | nil
  | cons (key : String) (val : JSValue) (tail : JSFields)
deriving DecidableEq, Repr
end

/-- Convert a model-level array to a Lean list of its elements. -/
def JSList.toList : JSList → List JSValue
  | .nil => []
  | .cons h t => h :: t.toList

/-- Build a model-level array from a Lean list. -/
def JSList.ofList : List JSValue → JSList
  | [] => .nil
  | h :: t => .cons h (JSList.ofList t)

/-- Build an object from a key/value list (keys assumed distinct, as for
objects produced by `JSON.parse`). -/
def JSFields.ofList : List (String × JSValue) → JSFields
  | [] => .nil
  | (k, v) :: t => .cons k v (JSFields.ofList t)

/-- Array literal helper. -/
def jsArr (l : List JSValue) : JSValue := .arr (JSList.ofList l)

/-- Object literal helper. -/
def jsObj (l : List (String × JSValue)) : JSValue := .obj (JSFields.ofList l)

/-- JavaScript truthiness of a JSON value (`null`, `false`, `0` and the
empty string are falsy; every array and object is truthy). -/
def jsTruthy : JSValue → Bool
  | .null => false
  | .bool b => b
  | .num n => n != 0
  | .str s => s != ""
  | .arr _ => true
  | .obj _ => true

/-- Truthiness of a possibly-absent value (`none` models `undefined`). -/
def jsTruthyOpt : Option JSValue → Bool
  | some v => jsTruthy v
  | none => false

/-- First-match lookup of a key among object fields. -/
def JSFields.lookup (k : String) : JSFields → Option JSValue
  | .nil => none
  | .cons key v t => if key = k then some v else JSFields.lookup k t

/-- Property read `v[k]` / `v.k`: defined for objects, `undefined` (`none`)
for every other value (the claims never read properties of `null` without an
optional chain, so the TypeError case does not arise). -/
def jsGet (v : JSValue) (k : String) : Option JSValue :=
  match v with
  | .obj fields => fields.lookup k
  | _ => none

/-- Optional-chained property read `v?.k` on a possibly-absent value. -/
def jsGetOpt (v : Option JSValue) (k : String) : Option JSValue :=
  match v with
  | some x => jsGet x k
  | none => none

/- JavaScript `ToString` on the modelled values; for arrays this is
`Array.prototype.toString`, i.e. a comma join in which `null` elements
become the empty string.  Property keys in computed member access go
through exactly this conversion. -/
mutual
def jsToString : JSValue → String
  | .null => "null"
  | .bool true => "true"
  | .bool false => "false"
  | .num n => toString n
  | .str s => s
  | .arr xs => String.intercalate "," (jsJoinList xs)
  | .obj _ => "[object Object]"
def jsJoinList : JSList → List String
  | .nil => []
  | .cons .null rest => "" :: jsJoinList rest
  | .cons v rest => jsToString v :: jsJoinList rest
end

/-- The JavaScript expression `v || d` for a possibly-absent `v`. -/
def jsOrVal (v : Option JSValue) (d : JSValue) : JSValue :=
  match v with
  | some x => if jsTruthy x then x else d
  | none => d

/-- The JavaScript expression `s || d` for a possibly-absent string (query
parameters and typed body fields): an absent or empty string falls back to
the default. -/
def jsOrDefault (v : Option String) (d : String) : String :=
  match v with
  | some s => if s = "" then d else s
  | none => d

/-- Truthiness of a possibly-absent string value. -/
def strTruthy (v : Option String) : Bool :=
  match v with
  | some s => s != ""
  | none => false

/-- Row of the `requests` table (schema in `src/unnamed/part_000`); the
three JSON columns hold the driver-parsed values. -/
structure RequestRow where
  id : String
  user_id : String
  user_info : JSValue
  form_data : JSValue
  request_type : String
  details : JSValue
  reason : String
  request_status : String
  priority_level : String
  created_at : Nat
  updated_at : Nat
deriving DecidableEq, Repr

/-- Row of the `request_comments` table. -/
structure CommentRow where
  id : String
  request_id : String
  user_id : String
  user_name : String
  message : String
  is_internal : Bool
  created_at : Nat
deriving DecidableEq, Repr

/-- Row of the `user_roles` table; `permissions` is a JSON column, so at
runtime it may hold an array, a string, or any other JSON value. -/
structure RoleRow where
  email : String
  user_role : String
  permissions : JSValue
deriving DecidableEq, Repr

/-- The persistent state: the three tables read and written by the handler. -/
structure DB where
  requests : List RequestRow
  comments : List CommentRow
  roles : List RoleRow
deriving DecidableEq, Repr

/-- `isITTeamMember` (index.js lines 67-73): membership in a hard-coded
email list, compared against the lowercased caller email. -/
def IT_TEAM_EMAILS : List String :=
  ["john.smith@company.net", "admin@company.net"]

/-- The `toLowerCase()` call applied to caller emails (ASCII per-character
lowering, which is what `String.prototype.toLowerCase` does on the ASCII
emails involved). -/
def strToLower (s : String) : String := ⟨s.data.map Char.toLower⟩

/-- The `trim()` call applied to the notes field: strip leading and
trailing whitespace. -/
def strTrim (s : String) : String :=
  ⟨((s.data.dropWhile Char.isWhitespace).reverse.dropWhile
      Char.isWhitespace).reverse⟩

/-- Hard-coded IT-team check of index.js: note it looks only at the email
string, never at the `user_roles` table. -/
def isITTeamMember (email : String) : Bool :=
  IT_TEAM_EMAILS.contains (strToLower email)

/-- `parseJSON` helper (index.js lines 57-65) applied to a value already
materialised by the driver: falsy input gives `null`, anything else is
returned as parsed. -/
def parseJSON (v : JSValue) : JSValue :=
  if jsTruthy v then v else .null

/-- Comments of one request, in stored table order (the LEFT JOIN scan). -/
def commentsFor (db : DB) (rid : String) : List CommentRow :=
  db.comments.filter (fun c => c.request_id == rid)

/-- The `JSON_OBJECT` built for one joined comment row in the list and
fetch queries (index.js lines 367-378 and 574-586). -/
def commentToJson (c : CommentRow) : JSValue :=
  jsObj [("id", .str c.id), ("userId", .str c.user_id),
         ("userName", .str c.user_name), ("message", .str c.message),
         ("timestamp", .num c.created_at), ("isInternal", .bool c.is_internal)]

/-- The `JSON_ARRAYAGG(CASE WHEN c.id IS NOT NULL THEN JSON_OBJECT(...)
ELSE NULL END)` aggregate over the LEFT JOIN group of one request: with no
matching comments the join produces a single all-NULL comment side, so the
aggregate is `[null]`; otherwise one object per comment in scan order
(`JSON_ARRAYAGG` imposes no ordering of its own). -/
def aggCommentsJson (db : DB) (rid : String) : JSValue :=
  match commentsFor db rid with
  | [] => jsArr [.null]
  | cs => jsArr (cs.map commentToJson)

/-- The JS post-processing `row.comments ? parseJSON(row.comments).filter(c
=> c !== null) : []` (index.js lines 405 and 604).  The aggregate is always
an array here, so the non-array branch is unreachable. -/
def commentsField (agg : JSValue) : List JSValue :=
  if jsTruthy agg then
    match parseJSON agg with
    | .arr xs => xs.toList.filter (fun c => !(c == .null))
    | _ => []
  else []

/-- Response shape of one request produced by the row-mapping code shared
verbatim by GET /api/requests (lines 393-408) and the PUT status re-fetch
(lines 608-623). -/
structure RequestOut where
  id : String
  userId : String
  userInfo : JSValue
  formData : JSValue
  type : String
  details : JSValue
  reason : String
  status : String
  priority : String
  createdAt : Nat
  updatedAt : Nat
  comments : List JSValue
  isSecurityIncident : Bool
  severity : JSValue
deriving DecidableEq, Repr

/-- Row-to-response mapping shared by the list and the post-update fetch. -/
def transformRow (db : DB) (r : RequestRow) : RequestOut :=
  { id := r.id
    userId := r.user_id
    userInfo := parseJSON r.user_info
    formData := parseJSON r.form_data
    type := r.request_type
    details := parseJSON r.details
    reason := r.reason
    status := r.request_status
    priority := r.priority_level
    createdAt := r.created_at
    updatedAt := r.updated_at
    comments := commentsField (aggCommentsJson db r.id)
    isSecurityIncident := true
    severity := jsOrVal (jsGet (parseJSON r.form_data) "severity") (.str r.priority_level) }

/-- Stable insertion for `ORDER BY created_at DESC`. -/
def insertDesc (r : RequestRow) : List RequestRow → List RequestRow
  | [] => [r]
  | x :: xs => if x.created_at < r.created_at then r :: x :: xs else x :: insertDesc r xs

/-- `ORDER BY r.created_at DESC` of the two read queries. -/
def orderByCreatedDesc : List RequestRow → List RequestRow
  | [] => []
  | r :: rs => insertDesc r (orderByCreatedDesc rs)

/-- Request rows admitted by the WHERE clause of GET /api/requests (index.js
lines 383-388): the caller email (after its `||` default) is checked against
the hard-coded IT list; non-IT callers are restricted to rows whose
`user_id` equals the (defaulted) `userId` parameter. -/
def visibleRequests (db : DB) (userIdQ userEmailQ : Option String) :
    List RequestRow :=
  if isITTeamMember (jsOrDefault userEmailQ "john.smith@company.net") then
    db.requests
  else
    db.requests.filter (fun r => r.user_id == jsOrDefault userIdQ "test-user-123")

/-- GET /api/requests (index.js lines 360-418): default the two query
parameters, decide visibility with `isITTeamMember`, run the grouped LEFT
JOIN query (one output row per request row thanks to the `id` primary key),
order newest-first and map each row to the response shape. -/
def listRequests (db : DB) (userIdQ userEmailQ : Option String) : List RequestOut :=
  (orderByCreatedDesc (visibleRequests db userIdQ userEmailQ)).map (transformRow db)

/-- The error message `msg` mentions the field name `field`. -/
def errorNamesField (msg field : String) : Prop :=
  ∃ pre post, msg = pre ++ field ++ post

/-- Default permission set handed to unknown users and to records whose
permissions cell has an unexpected format (index.js lines 299, 311, 317). -/
def minimalPermissions : List String := ["request:create", "request:view-own"]

/-- Admin fallback used when parsing a stored permissions string throws
(index.js line 307). -/
def adminFallbackPermissions : List String :=
  ["request:create", "request:view-own", "request:view-all", "request:approve",
   "request:assign", "request:delete", "notification:send", "user:manage",
   "analytics:view"]

/-- it-support fallback used when parsing a stored permissions string
throws (index.js line 309). -/
def itSupportFallbackPermissions : List String :=
  ["request:create", "request:view-own", "request:view-all", "request:approve",
   "request:assign", "notification:send", "analytics:view"]

/-- The role-keyed fallback of the catch block (index.js lines 305-312). -/
def roleFallbackPermissions (role : String) : List String :=
  if role = "admin" then adminFallbackPermissions
  else if role = "it-support" then itSupportFallbackPermissions
  else minimalPermissions

/-- Embed a list of permission strings as a JSON array value. -/
def strArr (xs : List String) : JSValue := jsArr (xs.map .str)

/-- Is the value a string or an array (the two formats the permissions
branches of index.js lines 293-300 treat specially)? -/
def isStrOrArr : JSValue → Bool
  | .str _ => true
  | .arr _ => true
  | _ => false

/-- Permissions resolution for a stored role record (index.js lines
288-313): a string cell goes through `JSON.parse` — modelled by the `parse`
argument, `none` meaning the parse throws — whose failure falls back to the
role-keyed table; an array cell is used as-is; any other format gets the
minimal default. -/
def resolvePermissions (parse : String → Option JSValue) (role : String)
    (cell : JSValue) : JSValue :=
  match cell with
  | .str s =>
    match parse s with
    | some v => v
    | none => strArr (roleFallbackPermissions role)
  | .arr xs => .arr xs
  | _ => strArr minimalPermissions

/-- The `user` object built by GET /api/auth/user-role (index.js lines
320-328), restricted to the role-dependent fields. -/
structure ResolvedUser where
  role : String
  permissions : JSValue
  isITTeam : Bool
  isAdmin : Bool
deriving DecidableEq, Repr

/-- Role resolution of GET /api/auth/user-role (index.js lines 279-328),
given the `user_roles` table contents: lookup by lowercased email; an
unknown email yields role `user` with the minimal permission set. -/
def resolveUserRole (parse : String → Option JSValue) (roles : List RoleRow)
    (email : String) : ResolvedUser :=
  match roles.find? (fun r => r.email == strToLower email) with
  | none => ⟨"user", strArr minimalPermissions, false, false⟩
  | some r =>
    ⟨r.user_role, resolvePermissions parse r.user_role r.permissions,
     r.user_role == "it-support" || r.user_role == "admin",
     r.user_role == "admin"⟩

/-- Flat key/value block of the webhook payload (index.js lines 158-163);
the adaptive-card body carries the same data in display form. -/
structure NotifyPayload where
  reportId : String
  severity : String
  subject : JSValue
  reporterName : JSValue
  reporterEmail : JSValue
deriving DecidableEq, Repr

/-- Argument object passed to `sendTeamsNotification` by the create path
(index.js lines 473-480). -/
structure ReportData where
  requestId : String
  userInfo : Option JSValue
  formData : Option JSValue
  severity : String
  type : Option JSValue
  reason : Option JSValue
deriving DecidableEq, Repr

/-- Outcome of the single webhook `fetch`, supplied by the environment:
either an HTTP response with some status, or a thrown network error. -/
inductive DeliveryOracle where
  | respond (status : Nat)
  | throwErr (msg : String)
deriving DecidableEq, Repr

/-- What a completed `sendTeamsNotification` call did: the `fetch` and its
response handling sit inside a try/catch, so HTTP failures and thrown
delivery errors are logged and swallowed, and a missing webhook URL returns
early. -/
inductive NotifyResult where
  | skippedNoConfig
  | sentOk (payload : NotifyPayload)
  | sendFailed (payload : NotifyPayload) (status : Nat)
  | errorCaught (payload : NotifyPayload) (msg : String)
deriving DecidableEq, Repr

/-- The flat payload fields (index.js lines 158-163). -/
def buildNotifyPayload (d : ReportData) : NotifyPayload :=
  { reportId := d.requestId
    severity := d.severity
    subject := jsOrVal (jsGetOpt d.formData "subject") (jsOrVal d.reason .null)
    reporterName := jsOrVal (jsGetOpt d.userInfo "name") (.str "Unknown")
    reporterEmail := jsOrVal (jsGetOpt d.userInfo "email") (.str "N/A") }

/-- The JavaScript expression `a || b` where both operands may be
`undefined` (`none`). -/
def jsOrOpt (a b : Option JSValue) : Option JSValue :=
  match a with
  | some v => if jsTruthy v then some v else b
  | none => b

/-- Does calling a string method on this value throw?  An optional chain
short-circuits `undefined` and `null`; strings have the method; calling it
on any other value is a TypeError. -/
def strMethodThrows : Option JSValue → Bool
  | none => false
  | some .null => false
  | some (.str _) => false
  | some _ => true

/-- TypeError thrown by line 131 of index.js when the incident-type value
is a truthy non-string. -/
def replaceTypeErrorMsg : String :=
  "TypeError: (intermediate value).replace is not a function"

/-- TypeError thrown by line 144 of index.js when `formData.description`
is a truthy non-string. -/
def substringTypeErrorMsg : String :=
  "TypeError: (intermediate value).substring is not a function"

/-- The throwing sub-expressions of the adaptive-card payload literal
(index.js lines 107-164), in evaluation order: line 131 calls
`.replace` on `formData?.incidentType || type` (throws unless that value
is a string, `null` or `undefined`), and line 144 calls `.substring(0,200)`
on `formData?.description || 'No description provided'` (throws when the
description is truthy and not a string).  Every other sub-expression is an
object member access, an optional chain or a template interpolation and
cannot throw on JSON values. -/
def payloadBuildError (d : ReportData) : Option String :=
  if strMethodThrows (jsOrOpt (jsGetOpt d.formData "incidentType") d.type) then
    some replaceTypeErrorMsg
  else if strMethodThrows (some (jsOrVal (jsGetOpt d.formData "description")
      (.str "No description provided"))) then
    some substringTypeErrorMsg
  else none

/-- The payload construction of index.js lines 107-164.  It runs BEFORE
the `try` at line 166, so a TypeError raised here escapes
`sendTeamsNotification`. -/
def buildCardPayload (d : ReportData) : Except String NotifyPayload :=
  match payloadBuildError d with
  | some e => .error e
  | none => .ok (buildNotifyPayload d)

/-- `sendTeamsNotification` (index.js lines 75-193): no configured URL is a
silent no-op (the early return at line 82 precedes the payload build);
otherwise the card payload is constructed outside the try/catch — a
TypeError there escapes as `.error` — and then one delivery attempt is
made whose HTTP failure or thrown error is logged and swallowed. -/
def sendTeamsNotification (webhookUrl : Option String) (delivery : DeliveryOracle)
    (d : ReportData) : Except String NotifyResult :=
  match webhookUrl with
  | none => .ok .skippedNoConfig
  | some _ =>
    match buildCardPayload d with
    | .error e => .error e
    | .ok payload =>
      match delivery with
      | .respond status =>
        if 200 ≤ status ∧ status < 300 then .ok (.sentOk payload)
        else .ok (.sendFailed payload status)
      | .throwErr msg => .ok (.errorCaught payload msg)

/-- The validation check of POST /api/requests (index.js line 425):
`!requestData.userInfo || !requestData.type || !requestData.reason`. -/
def missingRequired (requestData : JSValue) : Bool :=
  !(jsTruthyOpt (jsGet requestData "userInfo")) ||
  !(jsTruthyOpt (jsGet requestData "type")) ||
  !(jsTruthyOpt (jsGet requestData "reason"))

/-- The severity-to-priority lookup object (index.js lines 440-445), read
with a computed member access, hence after JavaScript property-key
conversion of the index. -/
def severityToPriority (key : String) : Option String :=
  if key = "low" then some "low"
  else if key = "medium" then some "medium"
  else if key = "high" then some "high"
  else if key = "critical" then some "critical"
  else none

/-- Priority derivation of POST /api/requests (index.js lines 438-447):
start from `medium`; when `formData?.severity` is truthy, look its key up
in the object and fall back to `medium` when absent. -/
def derivePriority (requestData : JSValue) : String :=
  match jsGetOpt (jsGet requestData "formData") "severity" with
  | some sev =>
    if jsTruthy sev then
      match severityToPriority (jsToString sev) with
      | some p => p
      | none => "medium"
    else "medium"
  | none => "medium"

/-- Response of POST /api/requests: the 400 validation error, the 201 echo
object of index.js lines 482-501 (`request` echoes the raw body fields), or
the 500 of the top-level catch (index.js 647-658) when the awaited
notification step throws. -/
inductive CreateResult where
  | badRequest (error : String)
  | created (message : String) (id : String) (userId : JSValue) (priority : String)
  | serverError (message : String)
deriving DecidableEq, Repr

/-- HTTP status code of a create outcome. -/
def createStatusCode : CreateResult → Nat
  | .badRequest _ => 400
  | .created _ _ _ _ => 201
  | .serverError _ => 500

/-- Result of one create invocation: the response, the successor database,
and what the notification step did (`none` when it was never reached,
`some (.error e)` when it threw). -/
structure CreateState where
  result : CreateResult
  db : DB
  notify : Option (Except String NotifyResult)
deriving Repr

/-- The normalized row INSERTed by POST /api/requests (index.js lines
449-470): JSON blobs stored as given, absent `formData`/`details`
defaulting to an empty object, initial status `open`, priority from
`derivePriority`, both timestamps set to `now`; scalar SQL parameters are
bound via their string form. -/
def createdRow (requestData : JSValue) (now : Nat) (requestId : String) :
    RequestRow :=
  { id := requestId
    user_id := jsToString (jsOrVal (jsGet requestData "userId") (.str "test-user-123"))
    user_info := (jsGet requestData "userInfo").getD .null
    form_data := jsOrVal (jsGet requestData "formData") (jsObj [])
    request_type := jsToString ((jsGet requestData "type").getD .null)
    details := jsOrVal (jsGet requestData "details") (jsObj [])
    reason := jsToString ((jsGet requestData "reason").getD .null)
    request_status := "open"
    priority_level := derivePriority requestData
    created_at := now
    updated_at := now }

/-- The `reportData` object passed to `sendTeamsNotification` by the
create path (index.js lines 473-480): raw body fields plus the derived
priority as severity. -/
def createReportData (requestData : JSValue) (requestId : String)
    (priority : String) : ReportData :=
  { requestId := requestId
    userInfo := jsGet requestData "userInfo"
    formData := jsGet requestData "formData"
    severity := priority
    type := jsGet requestData "type"
    reason := jsGet requestData "reason" }

/-- The 201 response value of a successful create (index.js lines
482-501). -/
def createdResult (requestData : JSValue) (requestId : String) : CreateResult :=
  .created "Security report created successfully" requestId
    (jsOrVal (jsGet requestData "userId") (.str "test-user-123"))
    (derivePriority requestData)

/-- How the awaited notification step determines the create response: a
returned notification keeps the 201 path; a TypeError escaping the payload
build rejects the awaited call and reaches the top-level catch, which
answers 500 with the raw message. -/
def createOutcome (sent : Except String NotifyResult) (requestData : JSValue)
    (requestId : String) : CreateResult :=
  match sent with
  | .error e => .serverError e
  | .ok _ => createdResult requestData requestId

/-- POST /api/requests (index.js lines 421-502): validate, derive the
priority, INSERT the normalized row, then await the notification (whose
payload build can throw, reaching the top-level catch after the row is
already persisted), then respond.  `now` models `new Date()` and
`requestId` the generated id. -/
def createRequest (db : DB) (requestData : JSValue) (now : Nat)
    (requestId : String) (webhookUrl : Option String)
    (delivery : DeliveryOracle) : CreateState :=
  if missingRequired requestData then
    ⟨.badRequest "Missing required fields: userInfo, type, reason", db, none⟩
  else
    let row := createdRow requestData now requestId
    let db1 : DB := { db with requests := db.requests ++ [row] }
    let sent := sendTeamsNotification webhookUrl delivery
      (createReportData requestData requestId (derivePriority requestData))
    ⟨createOutcome sent requestData requestId, db1, some sent⟩

/-- Typed view of the PUT status body at the fields the route reads
(index.js lines 528-561); `none` models an absent field. -/
structure UpdateBody where
  status : Option String
  notes : Option String
  updatedBy : Option String
  isInternal : Option Bool
deriving DecidableEq, Repr

/-- Failure injection for the storage collaborator: for each of the three
queries of the PUT path, `some msg` makes that `executeQuery` call throw
with the given driver message. -/
structure FailSched where
  updateFail : Option String
  commentFail : Option String
  fetchFail : Option String
deriving DecidableEq, Repr

/-- Schedule under which every storage call succeeds. -/
def noFail : FailSched := ⟨none, none, none⟩

/-- The UPDATE statement of the PUT path (index.js line 543): set the new
status and refresh `updated_at` on the matching row; updating zero rows is
a success for MySQL. -/
def dbUpdateStatus (db : DB) (rid status : String) (now : Nat) : DB :=
  { db with requests := db.requests.map (fun r =>
      if r.id == rid then { r with request_status := status, updated_at := now }
      else r) }

/-- Driver message of the `request_comments.request_id` foreign-key
violation declared in the schema (src/unnamed/part_000 line 76). -/
def fkViolationMsg : String :=
  "ER_NO_REFERENCED_ROW_2: Cannot add or update a child row: a foreign key constraint fails on request_comments.request_id"

/-- The INSERT into `request_comments` (index.js lines 551-566): the
schema's foreign key makes the insert throw when the referenced request
does not exist, so no comment row is ever stored for a missing request. -/
def dbInsertComment (db : DB) (c : CommentRow) : Except String DB :=
  if db.requests.any (fun r => r.id == c.request_id) then
    .ok { db with comments := db.comments ++ [c] }
  else .error fkViolationMsg

/-- The fetch-by-id of the PUT path (index.js lines 573-593): the grouped
join returns at most one row (primary key), destructured by the handler. -/
def fetchById (db : DB) (rid : String) : Option RequestRow :=
  db.requests.find? (fun r => r.id == rid)

/-- Audit comment row built by the PUT path (index.js lines 555-563). -/
def mkAuditComment (requestId : String) (body : UpdateBody) (now : Nat)
    (commentId : String) : CommentRow :=
  { id := commentId
    request_id := requestId
    user_id := jsOrDefault body.updatedBy "admin"
    user_name := "IT Admin"
    message := "Status changed to " ++ body.status.getD "" ++ ". Notes: " ++
      body.notes.getD ""
    is_internal := body.isInternal.getD false
    created_at := now }

/-- Responses of PUT /api/requests/.../status, including the 500 produced
by the top-level catch (index.js lines 647-658), whose `message` field is
the raw `error.message` of whatever was thrown. -/
inductive UpdateResult where
  | badRequest (error : String)
  | serverError (message : String)
  | notFound (error : String)
  | ok (message : String) (request : RequestOut)
deriving DecidableEq, Repr

/-- HTTP status code of an update outcome. -/
def updateStatusCode : UpdateResult → Nat
  | .badRequest _ => 400
  | .serverError _ => 500
  | .notFound _ => 404
  | .ok _ _ => 200

/-- Result of one PUT invocation: response, successor database, and the
ordered trace of storage statements that were attempted. -/
structure UpdateState where
  result : UpdateResult
  db : DB
  trace : List String
deriving DecidableEq, Repr

/-- Final fetch step of the PUT path (index.js lines 572-634). -/
def finishFetch (db : DB) (sched : FailSched) (requestId : String)
    (t : List String) : UpdateState :=
  let t2 := t ++ ["SELECT request by id"]
  match sched.fetchFail with
  | some e => ⟨.serverError e, db, t2⟩
  | none =>
    match fetchById db requestId with
    | none => ⟨.notFound "Request not found", db, t2⟩
    | some row =>
      ⟨.ok "Request status updated successfully" (transformRow db row), db, t2⟩

/-- PUT /api/requests/.../status (index.js lines 525-635): require a truthy
status; UPDATE the row; when `notes` is truthy and non-blank after trim,
INSERT the audit comment; finally re-fetch and answer 200, or 404 when the
id resolves to no row.  Any storage throw is answered by the top-level
catch as a 500 carrying the raw error message; there is no transaction, so
earlier writes persist. -/
def updateStatus (db : DB) (sched : FailSched) (requestId : String)
    (body : UpdateBody) (now : Nat) (commentId : String) : UpdateState :=
  if !(strTruthy body.status) then ⟨.badRequest "Status is required", db, []⟩
  else
    let status := body.status.getD ""
    match sched.updateFail with
    | some e => ⟨.serverError e, db, ["UPDATE requests"]⟩
    | none =>
      let db1 := dbUpdateStatus db requestId status now
      let t1 := ["UPDATE requests"]
      if strTruthy body.notes && strTrim (body.notes.getD "") != "" then
        let t2 := t1 ++ ["INSERT request_comments"]
        match sched.commentFail with
        | some e => ⟨.serverError e, db1, t2⟩
        | none =>
          match dbInsertComment db1 (mkAuditComment requestId body now commentId) with
          | .error e => ⟨.serverError e, db1, t2⟩
          | .ok db2 => finishFetch db2 sched requestId t2
      else finishFetch db1 sched requestId t1

/-- Extract the `timestamp` field of an aggregated comment object. -/
def tsOf (c : JSValue) : Int :=
  match jsGet c "timestamp" with
  | some (.num t) => t
  | _ => 0

/-- Are the aggregated comments in ascending creation-time order? -/
def ascendingTs : List JSValue → Bool
  | [] => true
  | [_] => true
  | a :: b :: rest => decide (tsOf a ≤ tsOf b) && ascendingTs (b :: rest)

/-- Are the aggregated comments in descending creation-time order? -/
def descendingTs : List JSValue → Bool
  | [] => true
  | [_] => true
  | a :: b :: rest => decide (tsOf b ≤ tsOf a) && descendingTs (b :: rest)

/- Concrete fixtures used by the counterexamples and witnesses below. -/

/-- A `JSON.parse` model that always throws; the scenarios using it never
parse a string cell, or exercise exactly the throwing branch. -/
def parseNone : String → Option JSValue := fun _ => none

/-- The empty database. -/
def emptyDB : DB := ⟨[], [], []⟩

/-- A request owned by user `bob-id`. -/
def reqBob : RequestRow :=
  ⟨"REQ-B1", "bob-id", jsObj [], jsObj [], "other", jsObj [], "sample", "open",
   "medium", 10, 10⟩

/-- Database for the C1 counterexample: one request owned by bob, and a
role record granting `admin` to alice. -/
def c1db : DB :=
  ⟨[reqBob], [], [⟨"alice@company.net", "admin", strArr minimalPermissions⟩]⟩

/-- A creation body lacking the required `reason` field. -/
def noReasonBody : JSValue :=
  jsObj [("userInfo", jsObj [("name", .str "Ann")]), ("type", .str "other")]

/-- A request with id `REQ-1`. -/
def reqOne : RequestRow :=
  ⟨"REQ-1", "user-1", jsObj [], jsObj [], "other", jsObj [], "sample", "open",
   "medium", 10, 10⟩

/-- Database holding exactly `reqOne`. -/
def oneReqDB : DB := ⟨[reqOne], [], []⟩

/-- Status-update body without notes. -/
def bodyNoNotes : UpdateBody := ⟨some "resolved", none, none, none⟩

/-- Status-update body carrying non-blank notes. -/
def bodyWithNotes : UpdateBody := ⟨some "resolved", some "checked", none, none⟩

/-- Status-update body used in the C5 scenario. -/
def c5body : UpdateBody := ⟨some "in-progress", some "checked logs", none, none⟩

/-- Schedule under which the audit-comment INSERT throws. -/
def commentFailSched : FailSched := ⟨none, some "disk full", none⟩

/-- Role record whose permissions cell is a JSON object — neither a string
nor an array — under role `admin`. -/
def c6row : RoleRow :=
  ⟨"boss@company.net", "admin", jsObj [("request:create", .bool true)]⟩

/-- Comment created at time 20 (stored first). -/
def cmtA : CommentRow := ⟨"CMT-A", "REQ-1", "u1", "IT Admin", "late", false, 20⟩

/-- Comment created at time 10 (stored second). -/
def cmtB : CommentRow := ⟨"CMT-B", "REQ-1", "u1", "IT Admin", "early", false, 10⟩

/-- Comment created at time 30 (stored third). -/
def cmtC : CommentRow := ⟨"CMT-C", "REQ-1", "u1", "IT Admin", "latest", false, 30⟩

/-- Database whose comment table is in neither ascending nor descending
creation-time order. -/
def c7db : DB := ⟨[reqOne], [cmtA, cmtB, cmtC], []⟩

/-- A storage failure message carrying internal connection detail. -/
def storageErr1 : String :=
  "Access denied for user admin@10.0.0.5 (using password: YES)"

/-- A second, different storage failure message. -/
def storageErr2 : String := "connect ETIMEDOUT 10.0.0.7:3306"

/-! Helper lemmas shared by the claim theorems. -/

/-- Round-trip between Lean lists and model-level JSON arrays. -/
theorem JSList.toList_ofList (l : List JSValue) : (JSList.ofList l).toList = l := by
  induction l with
  | nil => rfl
  | cons h t ih => simp [JSList.ofList, JSList.toList, ih]

/-- An aggregated comment object is never the JSON `null`. -/
theorem commentToJson_beq_null (c : CommentRow) :
    (commentToJson c == JSValue.null) = false := rfl

/-- An aggregated comment object is never the JSON `null` (propositional). -/
theorem commentToJson_ne_null (c : CommentRow) : commentToJson c ≠ JSValue.null := by
  simp [commentToJson, jsObj]

/-- The null filter of the comments post-processing keeps every aggregated
comment object. -/
theorem filter_ne_null_map_commentToJson (cs : List CommentRow) :
    (cs.map commentToJson).filter (fun c => !(c == JSValue.null)) =
      cs.map commentToJson := by
  induction cs with
  | nil => rfl
  | cons c t ih => simp [List.filter_cons, commentToJson_beq_null, ih]

/-- The embedded comments of a request are exactly its comment rows in
stored order, mapped to their JSON objects: the `[null]` placeholder of an
empty join group is filtered away, and nothing else is dropped. -/
theorem commentsField_agg (db : DB) (rid : String) :
    commentsField (aggCommentsJson db rid) = (commentsFor db rid).map commentToJson := by
  cases h : commentsFor db rid with
  | nil =>
    simp [aggCommentsJson, h, commentsField, parseJSON, jsTruthy, jsArr,
      JSList.ofList, JSList.toList, List.filter]
  | cons c t =>
    simp only [aggCommentsJson, h, commentsField, parseJSON, jsArr, jsTruthy]
    simp [JSList.toList_ofList]
    exact ⟨commentToJson_ne_null c, fun a _ => commentToJson_ne_null a⟩

/-- Membership is preserved by the descending insertion. -/
theorem mem_insertDesc {a r : RequestRow} {l : List RequestRow} :
    a ∈ insertDesc r l ↔ a = r ∨ a ∈ l := by
  induction l with
  | nil => simp [insertDesc]
  | cons x xs ih =>
    by_cases h : x.created_at < r.created_at
    · simp [insertDesc, h]
    · simp [insertDesc, h, ih]
      tauto

/-- Membership is preserved by `ORDER BY created_at DESC`. -/
theorem mem_orderByCreatedDesc {a : RequestRow} {l : List RequestRow} :
    a ∈ orderByCreatedDesc l ↔ a ∈ l := by
  induction l with
  | nil => simp [orderByCreatedDesc]
  | cons x xs ih => simp [orderByCreatedDesc, mem_insertDesc, ih]

/-- The row mapping keeps the row id. -/
theorem transformRow_id (db : DB) (r : RequestRow) : (transformRow db r).id = r.id := rfl

/-- The row mapping keeps the owner id. -/
theorem transformRow_userId (db : DB) (r : RequestRow) :
    (transformRow db r).userId = r.user_id := rfl

/-- The default caller email is an IT-team email. -/
theorem isITTeamMember_default : isITTeamMember "john.smith@company.net" = true := by
  decide

/-! Claim theorems. -/

/-- C10: on GET /api/requests an absent `userEmail` query parameter
defaults to `john.smith@company.net` and an absent `userId` defaults to
`test-user-123`; the defaulted email is in the hard-coded IT-team list, so
every call omitting `userEmail` gets the unrestricted all-owners list. -/
theorem c10_absent_email_defaults_to_it_visibility (db : DB)
    (userIdQ : Option String) :
    jsOrDefault (none : Option String) "john.smith@company.net" =
      "john.smith@company.net" ∧
    jsOrDefault (none : Option String) "test-user-123" = "test-user-123" ∧
    isITTeamMember "john.smith@company.net" = true ∧
    visibleRequests db userIdQ none = db.requests ∧
    listRequests db userIdQ none =
      (orderByCreatedDesc db.requests).map (transformRow db) := by
  refine ⟨rfl, rfl, isITTeamMember_default, ?_, ?_⟩ <;>
    simp [visibleRequests, listRequests, jsOrDefault, isITTeamMember_default]

/-- C1 (counterexample): a caller whose stored role is `admin` — an IT-team
member in the claim's role sense, `isITTeam = true` — but whose email is
not in the hard-coded list receives an empty list instead of all requests:
the request owned by `bob-id` is in the database but not in the response. -/
theorem c1_admin_role_not_unrestricted :
    (resolveUserRole parseNone c1db.roles "alice@company.net").role = "admin" ∧
    (resolveUserRole parseNone c1db.roles "alice@company.net").isITTeam = true ∧
    reqBob ∈ c1db.requests ∧
    listRequests c1db (some "alice-id") (some "alice@company.net") = [] := by
  refine ⟨rfl, rfl, ?_, ?_⟩ <;> decide

/-- C1 (amended): list visibility is decided by the hard-coded email list,
not by the stored role: when the caller's defaulted `userEmail` passes
`isITTeamMember`, every stored request appears in the response; otherwise
every returned request is owned by the caller's (defaulted) `userId`. -/
theorem c1_visibility_by_email_list (db : DB) (userIdQ userEmailQ : Option String) :
    (isITTeamMember (jsOrDefault userEmailQ "john.smith@company.net") = true →
      ∀ r, r ∈ db.requests →
        ∃ o, o ∈ listRequests db userIdQ userEmailQ ∧ o.id = r.id ∧
          o.userId = r.user_id) ∧
    (isITTeamMember (jsOrDefault userEmailQ "john.smith@company.net") = false →
      ∀ o, o ∈ listRequests db userIdQ userEmailQ →
        o.userId = jsOrDefault userIdQ "test-user-123") := by
  constructor
  · intro hIT r hr
    refine ⟨transformRow db r, ?_, rfl, rfl⟩
    simp only [listRequests, visibleRequests, hIT, if_pos]
    exact List.mem_map.mpr ⟨r, mem_orderByCreatedDesc.mpr hr, rfl⟩
  · intro hIT o ho
    simp only [listRequests, visibleRequests, hIT, Bool.false_eq_true,
      if_false, List.mem_map] at ho
    obtain ⟨r, hr, rfl⟩ := ho
    have hf := List.mem_filter.mp (mem_orderByCreatedDesc.mp hr)
    have : r.user_id = jsOrDefault userIdQ "test-user-123" := by
      simpa using hf.2
    simpa [transformRow_userId] using this

/-- C1 (witness): in a database whose single request is owned by `user-1`,
an IT-email caller receives that request. -/
theorem c1_visibility_by_email_list_witness :
    ∃ o, o ∈ listRequests oneReqDB (some "user-1") none ∧ o.id = "REQ-1" ∧
      o.userId = "user-1" :=
  (c1_visibility_by_email_list oneReqDB (some "user-1") none).1 (by decide)
    reqOne (by decide)

/-- C3: a creation payload missing any of the required fields `userInfo`,
`type`, `reason` is answered with the 400 validation error naming the
missing fields, the database is untouched (no INSERT), and the
notification step is never reached. -/
theorem c3_missing_fields_no_write (requestData : JSValue) (db : DB) (now : Nat)
    (rid : String) (url : Option String) (o : DeliveryOracle)
    (h : jsGet requestData "userInfo" = none ∨ jsGet requestData "type" = none ∨
         jsGet requestData "reason" = none) :
    (createRequest db requestData now rid url o).result =
      CreateResult.badRequest "Missing required fields: userInfo, type, reason" ∧
    createStatusCode (createRequest db requestData now rid url o).result = 400 ∧
    (createRequest db requestData now rid url o).db = db ∧
    (createRequest db requestData now rid url o).notify = none ∧
    errorNamesField "Missing required fields: userInfo, type, reason" "userInfo" ∧
    errorNamesField "Missing required fields: userInfo, type, reason" "type" ∧
    errorNamesField "Missing required fields: userInfo, type, reason" "reason" := by
  have hm : missingRequired requestData = true := by
    rcases h with h | h | h <;> simp [missingRequired, h, jsTruthyOpt]
  refine ⟨by simp [createRequest, hm], by simp [createRequest, hm, createStatusCode],
    by simp [createRequest, hm], by simp [createRequest, hm], ?_, ?_, ?_⟩
  · exact ⟨"Missing required fields: ", ", type, reason", by decide⟩
  · exact ⟨"Missing required fields: userInfo, ", ", reason", by decide⟩
  · exact ⟨"Missing required fields: userInfo, type, ", "", by decide⟩

/-- C3 (witness): a concrete body lacking `reason` is rejected with no
write. -/
theorem c3_missing_fields_no_write_witness :
    (createRequest emptyDB noReasonBody 3 "REQ-W3" none (.respond 200)).result =
      CreateResult.badRequest "Missing required fields: userInfo, type, reason" ∧
    createStatusCode (createRequest emptyDB noReasonBody 3 "REQ-W3" none
      (.respond 200)).result = 400 ∧
    (createRequest emptyDB noReasonBody 3 "REQ-W3" none (.respond 200)).db =
      emptyDB ∧
    (createRequest emptyDB noReasonBody 3 "REQ-W3" none (.respond 200)).notify =
      none ∧
    errorNamesField "Missing required fields: userInfo, type, reason" "userInfo" ∧
    errorNamesField "Missing required fields: userInfo, type, reason" "type" ∧
    errorNamesField "Missing required fields: userInfo, type, reason" "reason" :=
  c3_missing_fields_no_write noReasonBody emptyDB 3 "REQ-W3" none (.respond 200)
    (Or.inr (Or.inr (by decide)))

/-- C4 (code bug): a status update on a nonexistent id creates no comment,
and without notes it is answered 404; but when non-blank notes are
supplied, the unconditional audit-comment INSERT violates the
`request_comments` foreign key before any existence check runs, and the
top-level catch answers a generic 500 instead of the 404 required by the
specification. -/
theorem c4_missing_id_outcomes :
    fetchById oneReqDB "REQ-MISSING" = none ∧
    (updateStatus oneReqDB noFail "REQ-MISSING" bodyNoNotes 50 "CMT-X").result =
      UpdateResult.notFound "Request not found" ∧
    (updateStatus oneReqDB noFail "REQ-MISSING" bodyNoNotes 50 "CMT-X").db.comments
      = [] ∧
    (updateStatus oneReqDB noFail "REQ-MISSING" bodyWithNotes 50 "CMT-X").result =
      UpdateResult.serverError fkViolationMsg ∧
    updateStatusCode (updateStatus oneReqDB noFail "REQ-MISSING" bodyWithNotes 50
      "CMT-X").result = 500 ∧
    (updateStatus oneReqDB noFail "REQ-MISSING" bodyWithNotes 50 "CMT-X").db.comments
      = [] := by
  decide

/-- C5 (counterexample): when the audit-comment INSERT fails after a
successful status UPDATE, the new status persists (no rollback) but the
operation answers a generic 500 — it does not report the status update as
successful, contrary to the claim. -/
theorem c5_comment_failure_reported_as_500 :
    (updateStatus oneReqDB commentFailSched "REQ-1" c5body 60 "CMT-2").result =
      UpdateResult.serverError "disk full" ∧
    updateStatusCode (updateStatus oneReqDB commentFailSched "REQ-1" c5body 60
      "CMT-2").result = 500 ∧
    ((updateStatus oneReqDB commentFailSched "REQ-1" c5body 60 "CMT-2").db.requests.map
      (fun r => r.request_status)) = ["in-progress"] ∧
    (updateStatus oneReqDB commentFailSched "REQ-1" c5body 60 "CMT-2").db.comments =
      [] ∧
    (updateStatus oneReqDB commentFailSched "REQ-1" c5body 60 "CMT-2").trace =
      ["UPDATE requests", "INSERT request_comments"] := by
  decide

/-- C5 (amended): the audit-comment INSERT is attempted only after the
status UPDATE has succeeded (a failed or skipped UPDATE leaves no INSERT in
the trace), and when the INSERT fails the already-applied status update is
not rolled back — but the operation then reports a generic 500 failure
carrying the raw error message rather than reporting the status update as
successful. -/
theorem c5_comment_after_update_no_rollback (db : DB) (sched : FailSched)
    (rid : String) (body : UpdateBody) (now : Nat) (cid : String) :
    (sched.updateFail ≠ none ∨ strTruthy body.status = false →
      "INSERT request_comments" ∉ (updateStatus db sched rid body now cid).trace) ∧
    (∀ e, strTruthy body.status = true → sched.updateFail = none →
      sched.commentFail = some e →
      (strTruthy body.notes && strTrim (body.notes.getD "") != "") = true →
      (updateStatus db sched rid body now cid).result =
        UpdateResult.serverError e ∧
      updateStatusCode (updateStatus db sched rid body now cid).result = 500 ∧
      (updateStatus db sched rid body now cid).db =
        dbUpdateStatus db rid (body.status.getD "") now ∧
      (updateStatus db sched rid body now cid).trace =
        ["UPDATE requests", "INSERT request_comments"]) := by
  constructor
  · intro h
    rcases h with h | h
    · obtain ⟨e, he⟩ := Option.ne_none_iff_exists'.mp h
      by_cases hs : strTruthy body.status = true
      · simp [updateStatus, hs, he]
      · have hs' : strTruthy body.status = false := by simpa using hs
        simp [updateStatus, hs']
    · simp [updateStatus, h]
  · intro e hs hu hc hn
    refine ⟨?_, ?_, ?_, ?_⟩ <;>
      simp [updateStatus, hs, hu, hc, hn, updateStatusCode]

/-- C5 (witness): the amended claim at a concrete database and failure
schedule. -/
theorem c5_comment_after_update_no_rollback_witness :
    (updateStatus oneReqDB commentFailSched "REQ-1" c5body 60 "CMT-1").result =
      UpdateResult.serverError "disk full" ∧
    updateStatusCode (updateStatus oneReqDB commentFailSched "REQ-1" c5body 60
      "CMT-1").result = 500 ∧
    (updateStatus oneReqDB commentFailSched "REQ-1" c5body 60 "CMT-1").db =
      dbUpdateStatus oneReqDB "REQ-1" "in-progress" 60 ∧
    (updateStatus oneReqDB commentFailSched "REQ-1" c5body 60 "CMT-1").trace =
      ["UPDATE requests", "INSERT request_comments"] :=
  (c5_comment_after_update_no_rollback oneReqDB commentFailSched "REQ-1" c5body
    60 "CMT-1").2 "disk full" (by decide) rfl rfl (by decide)

/-- C6 (counterexample): a stored record with role `admin` whose
permissions cell is a JSON object — a value unparsable as a list —
resolves to the minimal `user` permission set, not to the role-keyed
admin fallback table required by the claim. -/
theorem c6_object_permissions_not_role_keyed :
    (resolveUserRole parseNone [c6row] "boss@company.net").role = "admin" ∧
    isStrOrArr c6row.permissions = false ∧
    (resolveUserRole parseNone [c6row] "boss@company.net").permissions =
      strArr minimalPermissions ∧
    (strArr minimalPermissions == strArr adminFallbackPermissions) = false ∧
    (strArr minimalPermissions ==
      strArr (roleFallbackPermissions "admin")) = false := by
  decide

/-- C6 (amended): role resolution is a total function that never throws: an
unknown email yields role `user` with exactly the minimal default set; a
stored permissions string whose JSON parse throws falls back to the
role-keyed default table (whose sets form the chain user ⊆ it-support ⊆
admin); but a stored permissions value that is neither a string nor an
array falls back to the minimal set regardless of the stored role, and a
string parsing to a non-array is used as parsed. -/
theorem c6_role_resolution_total (parse : String → Option JSValue)
    (roles : List RoleRow) (email : String) :
    (roles.find? (fun r => r.email == strToLower email) = none →
      resolveUserRole parse roles email =
        ⟨"user", strArr minimalPermissions, false, false⟩) ∧
    (∀ r, roles.find? (fun rr => rr.email == strToLower email) = some r →
      (resolveUserRole parse roles email).role = r.user_role ∧
      (∀ s, r.permissions = JSValue.str s → parse s = none →
        (resolveUserRole parse roles email).permissions =
          strArr (roleFallbackPermissions r.user_role)) ∧
      (∀ s v, r.permissions = JSValue.str s → parse s = some v →
        (resolveUserRole parse roles email).permissions = v) ∧
      (isStrOrArr r.permissions = false →
        (resolveUserRole parse roles email).permissions =
          strArr minimalPermissions)) ∧
    (minimalPermissions.all
      (fun p => itSupportFallbackPermissions.contains p) = true ∧
     itSupportFallbackPermissions.all
      (fun p => adminFallbackPermissions.contains p) = true) := by
  refine ⟨?_, ?_, by decide⟩
  · intro h
    simp [resolveUserRole, h]
  · intro r h
    refine ⟨by simp [resolveUserRole, h], ?_, ?_, ?_⟩
    · intro s hp hparse
      simp [resolveUserRole, h, resolvePermissions, hp, hparse]
    · intro s v hp hparse
      simp [resolveUserRole, h, resolvePermissions, hp, hparse]
    · intro hfmt
      cases hp : r.permissions <;>
        simp_all [resolveUserRole, h, resolvePermissions, isStrOrArr]

/-- C6 (witness): an unknown email resolves to the default user role. -/
theorem c6_role_resolution_total_witness :
    resolveUserRole parseNone [c6row] "stranger@company.net" =
      ⟨"user", strArr minimalPermissions, false, false⟩ :=
  (c6_role_resolution_total parseNone [c6row] "stranger@company.net").1
    (by decide)

/-- C7 (counterexample): with the comment table stored in the order
[20, 10, 30], the embedded comments array of the listed request is in
neither ascending nor descending creation-time order: the query has no
ORDER BY on comments, so creation-time ordering is not guaranteed. -/
theorem c7_comments_not_time_ordered :
    ((listRequests c7db none none).map RequestOut.comments) =
      [[commentToJson cmtA, commentToJson cmtB, commentToJson cmtC]] ∧
    cmtA.created_at = 20 ∧ cmtB.created_at = 10 ∧ cmtC.created_at = 30 ∧
    ascendingTs [commentToJson cmtA, commentToJson cmtB, commentToJson cmtC] =
      false ∧
    descendingTs [commentToJson cmtA, commentToJson cmtB, commentToJson cmtC] =
      false := by
  decide

/-- C7 (amended): in both the list operation and the post-update fetch, the
embedded `comments` field is always an array — never null — holding exactly
the request's comment rows in stored aggregation order (the query does not
sort them by creation time): zero comments yield the empty array, and the
parent rows are neither dropped nor duplicated (the output ids are exactly
the ordered visible row ids). -/
theorem c7_comments_always_array (db : DB) (userIdQ userEmailQ : Option String) :
    (∀ o, o ∈ listRequests db userIdQ userEmailQ →
      o.comments = (commentsFor db o.id).map commentToJson ∧
      JSValue.null ∉ o.comments ∧
      (commentsFor db o.id = [] → o.comments = [])) ∧
    (∀ rid row, fetchById db rid = some row →
      (transformRow db row).comments = (commentsFor db row.id).map commentToJson ∧
      JSValue.null ∉ (transformRow db row).comments) ∧
    ((listRequests db userIdQ userEmailQ).map RequestOut.id) =
      ((orderByCreatedDesc (visibleRequests db userIdQ userEmailQ)).map
        RequestRow.id) := by
  have hnull : ∀ rid, JSValue.null ∉ (commentsFor db rid).map commentToJson := by
    intro rid h
    obtain ⟨c, _, hc⟩ := List.mem_map.mp h
    exact commentToJson_ne_null c hc
  refine ⟨?_, ?_, ?_⟩
  · intro o ho
    obtain ⟨r, _, rfl⟩ := List.mem_map.mp ho
    have hc : (transformRow db r).comments =
        (commentsFor db (transformRow db r).id).map commentToJson := by
      simpa [transformRow_id] using commentsField_agg db r.id
    exact ⟨hc, hc ▸ hnull _, fun he => by simp [hc, he]⟩
  · intro rid row _
    have hc : (transformRow db row).comments =
        (commentsFor db row.id).map commentToJson := commentsField_agg db row.id
    exact ⟨hc, hc ▸ hnull _⟩
  · simp only [listRequests, List.map_map]
    exact List.map_congr_left (fun a _ => transformRow_id db a)

/-- C7 (witness): the amended claim at the concrete out-of-order database:
the fetched request carries exactly its three stored comments. -/
theorem c7_comments_always_array_witness :
    (transformRow c7db reqOne).comments =
      (commentsFor c7db reqOne.id).map commentToJson ∧
    JSValue.null ∉ (transformRow c7db reqOne).comments :=
  (c7_comments_always_array c7db none none).2.1 "REQ-1" reqOne (by decide)

/-- C9 (counterexample): two different storage failures surface two
different 500 bodies, each carrying the raw driver message verbatim — the
surfaced message is not a generic description and includes the internal
storage detail. -/
theorem c9_raw_storage_message_leaked :
    (updateStatus oneReqDB ⟨some storageErr1, none, none⟩ "REQ-1" bodyNoNotes 60
      "CMT-3").result = UpdateResult.serverError storageErr1 ∧
    (updateStatus oneReqDB ⟨some storageErr2, none, none⟩ "REQ-1" bodyNoNotes 60
      "CMT-3").result = UpdateResult.serverError storageErr2 ∧
    storageErr1 ≠ storageErr2 := by
  decide

/-- C9 (amended): a storage-collaborator failure is surfaced as a 500
labelled Internal Server Error whose `message` field is exactly the raw
error message of the failed query (internal storage detail included, with
the full error additionally logged), the database is left unchanged, and
the failed statement is not retried — the trace holds a single attempt. -/
theorem c9_storage_error_surfaced_raw (db : DB) (e : String) (rid : String)
    (body : UpdateBody) (now : Nat) (cid : String)
    (h : strTruthy body.status = true) :
    (updateStatus db ⟨some e, none, none⟩ rid body now cid).result =
      UpdateResult.serverError e ∧
    updateStatusCode (updateStatus db ⟨some e, none, none⟩ rid body now
      cid).result = 500 ∧
    (updateStatus db ⟨some e, none, none⟩ rid body now cid).db = db ∧
    (updateStatus db ⟨some e, none, none⟩ rid body now cid).trace =
      ["UPDATE requests"] := by
  refine ⟨?_, ?_, ?_, ?_⟩ <;> simp [updateStatus, h, updateStatusCode]

/-- C9 (witness): the amended claim at a concrete database and failure. -/
theorem c9_storage_error_surfaced_raw_witness :
    (updateStatus oneReqDB ⟨some storageErr1, none, none⟩ "REQ-1" bodyNoNotes 70
      "CMT-4").result = UpdateResult.serverError storageErr1 ∧
    updateStatusCode (updateStatus oneReqDB ⟨some storageErr1, none, none⟩
      "REQ-1" bodyNoNotes 70 "CMT-4").result = 500 ∧
    (updateStatus oneReqDB ⟨some storageErr1, none, none⟩ "REQ-1" bodyNoNotes 70
      "CMT-4").db = oneReqDB ∧
    (updateStatus oneReqDB ⟨some storageErr1, none, none⟩ "REQ-1" bodyNoNotes 70
      "CMT-4").trace = ["UPDATE requests"] :=
  c9_storage_error_surfaced_raw oneReqDB storageErr1 "REQ-1" bodyNoNotes 70
    "CMT-4" (by decide)

end SecurityPortal
